import Mathlib

/-!
Verification of the requirement-evaluation gate of the clang refactoring
library (`clang/Tooling/Refactoring/RefactoringActionRuleRequirements.h`).

The header under `src/` defines `SourceRangeSelectionRequirement::evaluate`
and the `OptionRequirement<OptionType>` template. Their collaborators
(`RefactoringRuleContext`, `SourceRange`, `RefactoringOption`, the rule
binder) live in headers that are not part of `src/`; those are modelled
from the specification, and each such definition says so in its doc
comment. Stateful C++ (the by-reference `Context` parameter) is embedded
by explicit state passing: an evaluation returns its result together with
the context it leaves behind.
-/

set_option autoImplicit false

/-- Modelled from the spec: a source location of the external source-range
representation (`clang/Basic/SourceLocation.h` is not under `src/`). A
location is valid exactly when its encoding is nonzero. -/
structure SourceLocation where
  ID : Nat
  deriving DecidableEq, Repr

/-- A location is valid when its encoding is nonzero. -/
def SourceLocation.isValid (L : SourceLocation) : Bool :=
  L.ID ≠ 0

/-- Modelled from the spec: a possibly-invalid half-open text range, given
by its begin and end locations (`clang/Basic/SourceLocation.h` is not under
`src/`). -/
structure SourceRange where
  B : SourceLocation
  E : SourceLocation
  deriving DecidableEq, Repr

/-- A range is valid when both of its endpoints are valid. -/
def SourceRange.isValid (R : SourceRange) : Bool :=
  R.B.isValid && R.E.isValid

/-- Modelled from the spec: the per-invocation context, holding the current
selection range; it is filled during a setup phase and read during
evaluation (`RefactoringRuleContext.h` is not under `src/`). -/
structure RefactoringRuleContext where
  SelectionRange : SourceRange
  deriving DecidableEq, Repr

/-- Modelled from the spec: the context boundary exposes a read of the
current selection range. The context is threaded through the read so that
frame properties of evaluations are statable. -/
def RefactoringRuleContext.getSelectionRange (C : RefactoringRuleContext) :
    SourceRange × RefactoringRuleContext :=
  (C.SelectionRange, C)

/-- The payload of `llvm::StringError`: the diagnostic message carried by a
failure value. -/
structure StringError where
  message : String
  deriving DecidableEq, Repr

/-- `llvm::make_error<llvm::StringError>(msg, inconvertibleErrorCode())`:
wraps a message into a failure value. -/
def llvm.makeStringError (msg : String) : StringError :=
  ⟨msg⟩

/-- Embedding of `SourceRangeSelectionRequirement::evaluate` from
`RefactoringActionRuleRequirements.h`: if the context's selection range is
valid it is returned as the success value, otherwise a `StringError` with
the fixed diagnostic message is returned. The by-reference context is
threaded through and handed back next to the result. -/
def SourceRangeSelectionRequirement.evaluate (Context : RefactoringRuleContext) :
    Except StringError SourceRange × RefactoringRuleContext :=
  let p1 := Context.getSelectionRange
  if p1.1.isValid then
    let p2 := p1.2.getSelectionRange
    (Except.ok p2.1, p2.2)
  else
    (Except.error
      (llvm.makeStringError
        "refactoring action can't be initiated without a selection"),
     p1.2)

/-- Modelled from the spec: the identity of one shared, reference-counted
option instance (`RefactoringOption.h` is not under `src/`). Two
requirements share one logical option exactly when they hold the same
reference. -/
abbrev OptionRef := Nat

/-- Modelled from the spec: the stored state of one refactoring option — a
name, a declared required/optional-ness, and either a concrete resolved
value or the unset/absent state (`RefactoringOption.h` is not under
`src/`). -/
structure RefactoringOption (β : Type) where
  name : String
  isRequired : Bool
  value : Option β
  deriving DecidableEq, Repr

/-- Modelled from the spec: `getValue` surfaces the stored, pre-resolved
state of the option — absent for an unset optional option, a concrete
value otherwise. How a required option left unset reports its value is the
spec's open question (only a FIXME exists); the model surfaces the stored
state uniformly. -/
def RefactoringOption.getValue {β : Type} (O : RefactoringOption β) : Option β :=
  O.value

/-- Modelled from the spec: the state of all shared option instances of one
invocation, indexed by their references. Option resolution happens against
this shared state before evaluation begins. -/
def OptionStore (β : Type) : Type :=
  OptionRef → RefactoringOption β

/-- Modelled from the spec: the external resolver writes the resolved value
into the shared option instance, once, during the setup phase. -/
def resolveOption {β : Type} (store : OptionStore β) (r : OptionRef) (v : β) :
    OptionStore β :=
  fun x => if x = r then { store x with value := some v } else store x

/-- The state of one `OptionRequirement<OptionType>`: the partially-owned
shared option reference stored at construction (field `Opt` of the class in
`RefactoringActionRuleRequirements.h`). -/
structure OptionRequirement where
  Opt : OptionRef
  deriving DecidableEq, Repr

/-- Modelled from the spec: the constructor
`OptionRequirement() : Opt(createRefactoringOption<OptionType>())` stores
the one shared option reference created for (or handed to) the
requirement (`createRefactoringOption` is not under `src/`). -/
def OptionRequirement.construct (o : OptionRef) : OptionRequirement :=
  { Opt := o }

/-- Embedding of `OptionRequirement::getRefactoringOptions` from
`RefactoringActionRuleRequirements.h`: returns the single stored shared
option reference. -/
def OptionRequirement.getRefactoringOptions (R : OptionRequirement) :
    List OptionRef :=
  [R.Opt]

/-- Embedding of `OptionRequirement::evaluate` from
`RefactoringActionRuleRequirements.h`: returns `getValue()` of the stored
shared option as the success value; the unnamed by-reference context is
left untouched and handed back next to the result. -/
def OptionRequirement.evaluate {β : Type} (R : OptionRequirement)
    (store : OptionStore β) (Context : RefactoringRuleContext) :
    Except StringError (Option β) × RefactoringRuleContext :=
  (Except.ok (store R.Opt).getValue, Context)

/-- A heterogeneous list of extracted requirement values, indexed by their
types in declaration order. -/
inductive HList : List Type → Type 1
  | nil : HList []
  | cons {α : Type} {αs : List Type} : α → HList αs → HList (α :: αs)

/-- Modelled from the spec: an ordered tuple of requirements for one
candidate rule, each a typed evaluation from the context to a value or a
failure (the rule binder of §4.4 is not under `src/`). -/
inductive Requirements (Ctx Err : Type) : List Type → Type 1
  | nil : Requirements Ctx Err []
  | cons {α : Type} {αs : List Type} :
      (Ctx → Except Err α) → Requirements Ctx Err αs →
      Requirements Ctx Err (α :: αs)

/-- Concatenation of two ordered requirement tuples. -/
def Requirements.append {Ctx Err : Type} :
    {αs βs : List Type} → Requirements Ctx Err αs → Requirements Ctx Err βs →
    Requirements Ctx Err (αs ++ βs)
  | _, _, .nil, Qs => Qs
  | _, _, .cons R Rs, Qs => .cons R (Rs.append Qs)

/-- Modelled from the spec: the rule binder — evaluate the requirements
left to right against the one context, stop at the first failure and
return it, and when all succeed invoke the rule constructor with the
extracted values in declaration order (§4.4; the binder is not under
`src/`). -/
def bindRequirements {Ctx Err ρ : Type} :
    {αs : List Type} → Requirements Ctx Err αs → (HList αs → ρ) → Ctx →
    Except Err ρ
  | _, .nil, ctor, _ => Except.ok (ctor HList.nil)
  | _, .cons R Rs, ctor, C =>
    match R C with
    | Except.error e => Except.error e
    | Except.ok v => bindRequirements Rs (fun vs => ctor (HList.cons v vs)) C

/-- Every requirement of the tuple succeeds on the context, extracting
exactly these values in declaration order. -/
inductive SucceedsOn {Ctx Err : Type} (C : Ctx) :
    {αs : List Type} → Requirements Ctx Err αs → HList αs → Prop
  | nil : SucceedsOn C .nil .nil
  | cons {α : Type} {αs : List Type} {R : Ctx → Except Err α}
      {Rs : Requirements Ctx Err αs} {v : α} {vs : HList αs} :
      R C = Except.ok v → SucceedsOn C Rs vs →
      SucceedsOn C (.cons R Rs) (.cons v vs)

/-- A concrete context with no selection, used by witnesses. -/
def ctx0 : RefactoringRuleContext := ⟨⟨⟨0⟩, ⟨0⟩⟩⟩

/-- A concrete context with a valid selection, used by witnesses. -/
def ctx1 : RefactoringRuleContext := ⟨⟨⟨1⟩, ⟨2⟩⟩⟩

/-- A concrete option store: slot 0 holds a required option left unset,
every other slot holds an optional option left unset. -/
def requiredUnsetStore : OptionStore Nat :=
  fun r => if r = 0 then ⟨"dest", true, none⟩ else ⟨"name", false, none⟩

/-- A concrete option store whose every slot holds an unset optional
option. -/
def unsetOptionalStore : OptionStore Nat := fun _ => ⟨"name", false, none⟩

/-- A concrete requirement that succeeds with its context plus one. -/
def reqSucc : Nat → Except String Nat := fun c => Except.ok (c + 1)

/-- A concrete requirement that always fails. -/
def reqFail : Nat → Except String Bool := fun _ => Except.error "fail"

/-- A concrete requirement that succeeds with a constant. -/
def reqSeven : Nat → Except String Nat := fun _ => Except.ok 7

/-- A concrete three-requirement tuple whose middle requirement fails. -/
def tuple3 : Requirements Nat String [Nat, Bool, Nat] :=
  (Requirements.cons reqSucc .nil).append
    (.cons reqFail (.cons reqSeven .nil))

/-- The same tuple with a different third requirement. -/
def tuple3b : Requirements Nat String [Nat, Bool, Nat] :=
  (Requirements.cons reqSucc .nil).append
    (.cons reqFail (.cons (fun _ => Except.ok 8) .nil))

/-- A concrete rule constructor over the three-value tuple. -/
def ctor3 : HList [Nat, Bool, Nat] → Nat := fun _ => 0

/-- Another concrete rule constructor over the three-value tuple. -/
def ctor3b : HList [Nat, Bool, Nat] → Nat := fun _ => 1

/-- Claim C1: for every context whose selection range is invalid,
`SourceRangeSelectionRequirement::evaluate` returns the `StringError`
failure carrying exactly the fixed message, never a success value. -/
theorem sourceRangeSelection_invalid_fails
    (C : RefactoringRuleContext)
    (h : (C.getSelectionRange).1.isValid = false) :
    (SourceRangeSelectionRequirement.evaluate C).1 =
      Except.error
        (llvm.makeStringError
          "refactoring action can't be initiated without a selection") := by
  simp [SourceRangeSelectionRequirement.evaluate, h]

/-- Witness for C1 at a concrete context with an invalid selection. -/
theorem sourceRangeSelection_invalid_fails_witness :
    ((⟨⟨⟨0⟩, ⟨0⟩⟩⟩ :
        RefactoringRuleContext).getSelectionRange).1.isValid = false ∧
    (SourceRangeSelectionRequirement.evaluate ⟨⟨⟨0⟩, ⟨0⟩⟩⟩).1 =
      Except.error
        (llvm.makeStringError
          "refactoring action can't be initiated without a selection") :=
  ⟨by decide, sourceRangeSelection_invalid_fails ⟨⟨⟨0⟩, ⟨0⟩⟩⟩ (by decide)⟩

/-- Claim C2: for every context whose selection range is valid,
`SourceRangeSelectionRequirement::evaluate` succeeds and returns exactly
the context's selection range (identity round-trip). -/
theorem sourceRangeSelection_valid_roundtrip
    (C : RefactoringRuleContext)
    (h : (C.getSelectionRange).1.isValid = true) :
    (SourceRangeSelectionRequirement.evaluate C).1 =
      Except.ok (C.getSelectionRange).1 := by
  simp only [RefactoringRuleContext.getSelectionRange] at h
  simp [SourceRangeSelectionRequirement.evaluate,
    RefactoringRuleContext.getSelectionRange, h]

/-- Witness for C2 at a concrete context with a valid selection. -/
theorem sourceRangeSelection_valid_roundtrip_witness :
    ((⟨⟨⟨1⟩, ⟨2⟩⟩⟩ :
        RefactoringRuleContext).getSelectionRange).1.isValid = true ∧
    (SourceRangeSelectionRequirement.evaluate ⟨⟨⟨1⟩, ⟨2⟩⟩⟩).1 =
      Except.ok ((⟨⟨⟨1⟩, ⟨2⟩⟩⟩ :
        RefactoringRuleContext).getSelectionRange).1 :=
  ⟨by decide, sourceRangeSelection_valid_roundtrip ⟨⟨⟨1⟩, ⟨2⟩⟩⟩ (by decide)⟩

/-- Unfolding of the binder on a nonempty tuple. -/
theorem bindRequirements_cons {Ctx Err ρ : Type} {α : Type} {αs : List Type}
    (R : Ctx → Except Err α) (Rs : Requirements Ctx Err αs)
    (ctor : HList (α :: αs) → ρ) (C : Ctx) :
    bindRequirements (.cons R Rs) ctor C =
      match R C with
      | Except.error e => Except.error e
      | Except.ok v => bindRequirements Rs (fun vs => ctor (.cons v vs)) C :=
  rfl

/-- Unfolding of concatenation on the empty front tuple. -/
theorem requirements_append_nil {Ctx Err : Type} {βs : List Type}
    (Qs : Requirements Ctx Err βs) :
    Requirements.nil.append Qs = Qs :=
  rfl

/-- Unfolding of concatenation on a nonempty front tuple. -/
theorem requirements_append_cons {Ctx Err : Type} {α : Type}
    {αs βs : List Type} (R : Ctx → Except Err α)
    (Rs : Requirements Ctx Err αs) (Qs : Requirements Ctx Err βs) :
    (Requirements.cons R Rs).append Qs = Requirements.cons R (Rs.append Qs) :=
  rfl

/-- When every requirement succeeds, the binder applies the constructor to
the extracted values in declaration order. -/
theorem bindRequirements_ok_aux {Ctx Err : Type} {αs : List Type}
    {Rs : Requirements Ctx Err αs} {C : Ctx} {vs : HList αs}
    (h : SucceedsOn C Rs vs) :
    ∀ {ρ : Type} (ctor : HList αs → ρ),
      bindRequirements Rs ctor C = Except.ok (ctor vs) := by
  induction h with
  | nil => intro ρ ctor; rfl
  | cons hR _ ih =>
    intro ρ ctor
    rw [bindRequirements_cons, hR]
    exact ih _

/-- When a requirement fails after a succeeding front segment, the binder
returns exactly that failure. -/
theorem bindRequirements_error_aux {Ctx Err : Type} {γs : List Type}
    {front : Requirements Ctx Err γs} {C : Ctx} {vs : HList γs}
    (h : SucceedsOn C front vs) :
    ∀ {α : Type} {δs : List Type} (Rf : Ctx → Except Err α) (e : Err)
      (rest : Requirements Ctx Err δs) {ρ : Type}
      (ctor : HList (γs ++ α :: δs) → ρ),
      Rf C = Except.error e →
      bindRequirements (front.append (.cons Rf rest)) ctor C =
        Except.error e := by
  induction h with
  | nil =>
    intro α δs Rf e rest ρ ctor hf
    rw [requirements_append_nil, bindRequirements_cons, hf]
  | cons hR _ ih =>
    intro α δs Rf e rest ρ ctor hf
    rw [requirements_append_cons, bindRequirements_cons, hR]
    exact ih Rf e rest _ hf

/-- The selection requirement hands back the context it received. -/
theorem sourceRangeSelection_state_aux (C : RefactoringRuleContext) :
    (SourceRangeSelectionRequirement.evaluate C).2 = C := by
  cases hv : C.SelectionRange.isValid <;>
    simp [SourceRangeSelectionRequirement.evaluate,
      RefactoringRuleContext.getSelectionRange, hv]

/-- Claim C3: for every option requirement, option store and context,
evaluate returns, as a success, exactly the value stored in the shared
option as surfaced by getValue, with no re-validation of required-ness;
in particular, when the option is declared optional and is unset, the
absent value is returned as a success, not as a failure. -/
theorem optionRequirement_surfaces_stored_value {β : Type}
    (R : OptionRequirement) (store : OptionStore β)
    (C : RefactoringRuleContext) :
    (R.evaluate store C).1 = Except.ok (store R.Opt).getValue ∧
    ((store R.Opt).isRequired = false → (store R.Opt).value = none →
      (R.evaluate store C).1 = Except.ok none) := by
  refine ⟨rfl, fun _ hv => ?_⟩
  simp [OptionRequirement.evaluate, RefactoringOption.getValue, hv]

/-- Witness for C3 at a concrete requirement over an unset optional
option: the absent value comes back as a success. -/
theorem optionRequirement_surfaces_stored_value_witness :
    ((unsetOptionalStore 0).isRequired = false ∧
      (unsetOptionalStore 0).value = none) ∧
    (OptionRequirement.evaluate ⟨0⟩ unsetOptionalStore ctx0).1 =
      Except.ok none :=
  ⟨⟨by decide, by decide⟩,
    (optionRequirement_surfaces_stored_value ⟨0⟩ unsetOptionalStore ctx0).2
      (by decide) (by decide)⟩

/-- Counterexample to claim C5: with its shared option declared required
but left unset by the resolver, evaluate returns a success — the very
result produced for an absent optional option — not a failure
distinguishable from it. -/
theorem optionRequirement_requiredUnset_no_failure :
    (requiredUnsetStore 0).isRequired = true ∧
    (requiredUnsetStore 0).value = none ∧
    (requiredUnsetStore 1).isRequired = false ∧
    (requiredUnsetStore 1).value = none ∧
    (OptionRequirement.evaluate ⟨0⟩ requiredUnsetStore ctx0).1 =
      Except.ok none ∧
    (OptionRequirement.evaluate ⟨0⟩ requiredUnsetStore ctx0).1 =
      (OptionRequirement.evaluate ⟨1⟩ requiredUnsetStore ctx0).1 :=
  ⟨rfl, rfl, rfl, rfl, rfl, rfl⟩

/-- Claim C5 (amended): OptionRequirement::evaluate has no failure path at
all — for every requirement, option store and context it returns a
success wrapping the stored value, so a required option left unset is not
surfaced as a failure distinguishable from an absent optional option. -/
theorem optionRequirement_never_fails {β : Type} (R : OptionRequirement)
    (store : OptionStore β) (C : RefactoringRuleContext) :
    ∃ v, (R.evaluate store C).1 = Except.ok v :=
  ⟨(store R.Opt).getValue, rfl⟩

/-- Claim C6: a requirement constructed over a shared option reference
reports exactly that one reference from getRefactoringOptions, and
evaluate reads the very same reference out of the store. -/
theorem optionRequirement_declares_constructed_option {β : Type}
    (o : OptionRef) (store : OptionStore β) (C : RefactoringRuleContext) :
    (OptionRequirement.construct o).getRefactoringOptions = [o] ∧
    (OptionRequirement.construct o).getRefactoringOptions.length = 1 ∧
    (OptionRequirement.construct o).Opt = o ∧
    ((OptionRequirement.construct o).evaluate store C).1 =
      Except.ok (store o).getValue :=
  ⟨rfl, rfl, rfl, rfl⟩

/-- Claim C7: requirements holding the same shared option reference see
one resolved value — after the option is resolved once, evaluating each
sharing requirement, even against different contexts, yields the
identical resolved value. -/
theorem sharedOption_resolveOnce_consistent {β : Type}
    (R1 R2 : OptionRequirement) (store : OptionStore β) (v : β)
    (C1 C2 : RefactoringRuleContext) (h : R1.Opt = R2.Opt) :
    (R1.evaluate (resolveOption store R1.Opt v) C1).1 =
      Except.ok (some v) ∧
    (R2.evaluate (resolveOption store R1.Opt v) C2).1 =
      Except.ok (some v) ∧
    (R1.evaluate (resolveOption store R1.Opt v) C1).1 =
      (R2.evaluate (resolveOption store R1.Opt v) C2).1 := by
  refine ⟨?_, ?_, ?_⟩ <;>
    simp [OptionRequirement.evaluate, resolveOption,
      RefactoringOption.getValue, h]

/-- Witness for C7 at two concrete requirements sharing option slot 0. -/
theorem sharedOption_resolveOnce_consistent_witness :
    ((⟨0⟩ : OptionRequirement).Opt = (⟨0⟩ : OptionRequirement).Opt) ∧
    (OptionRequirement.evaluate ⟨0⟩
        (resolveOption unsetOptionalStore 0 5) ctx0).1 =
      Except.ok (some 5) ∧
    (OptionRequirement.evaluate ⟨0⟩
        (resolveOption unsetOptionalStore 0 5) ctx1).1 =
      Except.ok (some 5) :=
  ⟨rfl,
    (sharedOption_resolveOnce_consistent ⟨0⟩ ⟨0⟩ unsetOptionalStore 5
      ctx0 ctx1 rfl).1,
    (sharedOption_resolveOnce_consistent ⟨0⟩ ⟨0⟩ unsetOptionalStore 5
      ctx0 ctx1 rfl).2.1⟩

/-- Claim C8: evaluation is idempotent for both requirement kinds —
evaluating again against the context left behind by a first evaluation
yields the same result as the first evaluation. -/
theorem evaluate_idempotent :
    (∀ C : RefactoringRuleContext,
      (SourceRangeSelectionRequirement.evaluate
          (SourceRangeSelectionRequirement.evaluate C).2).1 =
        (SourceRangeSelectionRequirement.evaluate C).1) ∧
    (∀ (β : Type) (R : OptionRequirement) (store : OptionStore β)
        (C : RefactoringRuleContext),
      (R.evaluate store (R.evaluate store C).2).1 =
        (R.evaluate store C).1) :=
  ⟨fun C => by rw [sourceRangeSelection_state_aux],
    fun β R store C => rfl⟩

/-- Claim C9: SourceRangeSelectionRequirement::evaluate is a pure read —
the context it hands back is exactly the one passed in, with the same
selection range, even though the context is received by mutable
reference. -/
theorem sourceRangeSelection_pure_read (C : RefactoringRuleContext) :
    (SourceRangeSelectionRequirement.evaluate C).2 = C ∧
    ((SourceRangeSelectionRequirement.evaluate C).2).SelectionRange =
      C.SelectionRange :=
  ⟨sourceRangeSelection_state_aux C,
    by rw [sourceRangeSelection_state_aux]⟩

/-- Claim C10: the result of OptionRequirement::evaluate does not depend
on the context — the same requirement and store evaluated against any two
contexts yield the same result. -/
theorem optionRequirement_context_independent {β : Type}
    (R : OptionRequirement) (store : OptionStore β)
    (C1 C2 : RefactoringRuleContext) :
    (R.evaluate store C1).1 = (R.evaluate store C2).1 :=
  rfl

/-- Claim C4: the binder evaluates the requirements left to right; when
every requirement succeeds it invokes the rule constructor with the
extracted values in declaration order (all-or-nothing), and when a
requirement fails after a succeeding front segment, the binder returns
that failure verbatim, and the result is the same whatever the later
requirements and the constructor are — so neither is ever consulted. -/
theorem binder_short_circuit_all_or_nothing :
    (∀ (Ctx Err ρ : Type) (αs : List Type) (Rs : Requirements Ctx Err αs)
        (C : Ctx) (vs : HList αs) (ctor : HList αs → ρ),
      SucceedsOn C Rs vs →
        bindRequirements Rs ctor C = Except.ok (ctor vs)) ∧
    (∀ (Ctx Err ρ : Type) (γs δs : List Type)
        (front : Requirements Ctx Err γs) (C : Ctx) (vs : HList γs)
        (α : Type) (Rf : Ctx → Except Err α) (e : Err)
        (rest rest2 : Requirements Ctx Err δs)
        (ctor ctor2 : HList (γs ++ α :: δs) → ρ),
      SucceedsOn C front vs → Rf C = Except.error e →
        bindRequirements (front.append (.cons Rf rest)) ctor C =
          Except.error e ∧
        bindRequirements (front.append (.cons Rf rest)) ctor C =
          bindRequirements (front.append (.cons Rf rest2)) ctor2 C) :=
  ⟨fun _ _ _ _ _ _ _ ctor h => bindRequirements_ok_aux h ctor,
    fun _ _ _ _ _ _ _ _ _ Rf e rest rest2 ctor ctor2 h hf =>
      ⟨bindRequirements_error_aux h Rf e rest ctor hf,
        by rw [bindRequirements_error_aux h Rf e rest ctor hf,
          bindRequirements_error_aux h Rf e rest2 ctor2 hf]⟩⟩

/-- Witness for C4 at a concrete three-requirement tuple whose middle
requirement fails: the binder returns the middle failure, the result does
not depend on the third requirement or the constructor, and on an
all-succeeding tuple the constructor is applied. -/
theorem binder_short_circuit_witness :
    bindRequirements tuple3 ctor3 5 = Except.error "fail" ∧
    bindRequirements tuple3 ctor3 5 = bindRequirements tuple3b ctor3b 5 ∧
    bindRequirements (Requirements.cons reqSucc .nil)
      (fun _ => (37 : Nat)) 5 = Except.ok 37 :=
  ⟨(binder_short_circuit_all_or_nothing.2 Nat String Nat [Nat] [Nat]
      (Requirements.cons reqSucc .nil) 5 (HList.cons 6 HList.nil) Bool
      reqFail "fail" (Requirements.cons reqSeven .nil)
      (Requirements.cons (fun _ => Except.ok 8) .nil) ctor3 ctor3b
      (SucceedsOn.cons rfl SucceedsOn.nil) rfl).1,
    (binder_short_circuit_all_or_nothing.2 Nat String Nat [Nat] [Nat]
      (Requirements.cons reqSucc .nil) 5 (HList.cons 6 HList.nil) Bool
      reqFail "fail" (Requirements.cons reqSeven .nil)
      (Requirements.cons (fun _ => Except.ok 8) .nil) ctor3 ctor3b
      (SucceedsOn.cons rfl SucceedsOn.nil) rfl).2,
    binder_short_circuit_all_or_nothing.1 Nat String Nat [Nat]
      (Requirements.cons reqSucc .nil) 5 (HList.cons 6 HList.nil)
      (fun _ => (37 : Nat)) (SucceedsOn.cons rfl SucceedsOn.nil)⟩
